import Mathlib

/-!
Verification of the `osFs` driver (`_osFs.py`) against its specification.

The development shallowly embeds the code of `src/_osFs.py`:
pure helpers become Lean functions, the mutable Python objects become
explicit state records that operations thread through, exceptions become
`Except` (carrying the mutated state at the moment of the raise, matching
Python's by-reference mutation), and the OS backing store becomes an
explicit classification function plus a listing function.
-/

set_option autoImplicit false

namespace OsFsSpec

/-- Python exception values that the embedded code can raise. -/
inductive PyErr where
  /-- `ValueError`, e.g. from the builtin `open` -/
  | valueError (msg : String)
  /-- `TypeError` -/
  | typeError (msg : String)
  /-- `ezFs.NoFileException(path)` raised by `OsFs._getFsItem` -/
  | noFile (path : String)
  /-- `Exception("Null file location")` raised by `OsFile.open` -/
  | nullLocation
  /-- `KeyError`, e.g. `ACTIONS[action]` on an unknown action code -/
  | keyError
  /-- `RecursionError` from unbounded recursion -/
  | recursionError
  /-- an `OSError` from the backing store (`FileNotFoundError`, ...) -/
  | osError (msg : String)
  /-- an exception raised by a user-supplied watch callback -/
  | callbackErr (msg : String)
  deriving DecidableEq, Repr

/-- Rendering of an exception, as `print(e)` would show it in a log. -/
def pyErrMsg : PyErr → String
  | .valueError m => "ValueError: " ++ m
  | .typeError m => "TypeError: " ++ m
  | .noFile p => "NoFileException: " ++ p
  | .nullLocation => "Exception: Null file location"
  | .keyError => "KeyError"
  | .recursionError => "RecursionError"
  | .osError m => "OSError: " ++ m
  | .callbackErr m => "CallbackError: " ++ m

/-- What the backing store holds at a path: a directory or a (plain) file. -/
inductive EntryKind where
  | dir
  | file
  deriving DecidableEq, Repr

/-- The OS backing store, as the classification of every path:
`none` means nothing exists at the path. `os.path.isdir`/`os.path.exists`
are queries against it. -/
abbrev Store := String → Option EntryKind

/-- `os.path.isdir(p)` -/
def os_path_isdir (store : Store) (p : String) : Bool :=
  match store p with
  | some .dir => true
  | _ => false

/-- `os.path.exists(p)` -/
def os_path_exists (store : Store) (p : String) : Bool :=
  (store p).isSome

/-- `os.curdir` -/
def os_curdir : String := "."

/-- Does the first character list start with the second (the pattern)? -/
def listStarts : List Char → List Char → Bool
  | _, [] => true
  | [], _ :: _ => false
  | s :: ss, p :: ps => s == p && listStarts ss ps

/-- Does the string start with the pattern? -/
def strStarts (s pat : String) : Bool := listStarts s.data pat.data

/-- Does the string end with the pattern? -/
def strEnds (s pat : String) : Bool := listStarts s.data.reverse pat.data.reverse

/-- The string without its first `n` characters. -/
def strDrop (s : String) (n : Nat) : String := String.mk (s.data.drop n)

/-- The `filePath` of a location as the external `paths` collaborator
produces it: a `file://` form is stripped to its path part, a bare path is
itself. (Modelled from the spec: the resolver is an external collaborator;
accepted forms include a bare OS-style path and a `file://` prefixed form.) -/
def urlFilePath (u : String) : String :=
  if strStarts u "file://" then strDrop u 7 else u

/-- `url.child(c)` of the external `paths` collaborator: the location of a
named child inside a directory location. -/
def childUrl (u c : String) : String :=
  if strEnds u "/" then u ++ c else u ++ "/" ++ c

/-- A typed entity as produced by the driver, carrying its location
(`OsDirectory(url, fs)` / `OsFile(url, fs)`). -/
inductive OsItemT where
  | directory (url : String)
  | file (url : String)
  deriving DecidableEq, Repr

/-- `OsFs._getFsItem(url)`: normalize the location, take its file path
(empty path falls back to `os.curdir`), then classify: `os.path.isdir` →
directory entity, else `os.path.exists` → file entity, else raise
`ezFs.NoFileException(path)`. -/
def OsFs_getFsItem (store : Store) (url : String) : Except PyErr OsItemT :=
  let fp := urlFilePath url
  let path := if fp = "" then os_curdir else fp
  if os_path_isdir store path then .ok (.directory url)
  else if os_path_exists store path then .ok (.file url)
  else .error (.noFile path)

/-- The resolution contract in the words of the spec (for comparison with
`OsFs_getFsItem`): look up the backing store's classification of the
resolved path; nothing there → a "does not exist" failure; a directory
there → a directory entity; a file there → a file entity. -/
def resolveSpec (store : Store) (url : String) : Except PyErr OsItemT :=
  let fp := urlFilePath url
  let path := if fp = "" then os_curdir else fp
  match store path with
  | none => .error (.noFile path)
  | some .dir => .ok (.directory url)
  | some .file => .ok (.file url)

/-- Claim C4: for every location, typed resolution raises a "does not
exist" error exactly when nothing exists at the resolved path, and
otherwise returns a directory entity or a file entity according to the
backing store's classification — never guessing from names. Stated as:
`OsFs._getFsItem` coincides with the spec-side classifier `resolveSpec`. -/
theorem C4_getFsItem_matches_classification (store : Store) (url : String) :
    OsFs_getFsItem store url = resolveSpec store url := by
  unfold OsFs_getFsItem resolveSpec os_path_isdir os_path_exists
  cases h : store (if urlFilePath url = "" then os_curdir else urlFilePath url) with
  | none => simp [h]
  | some k => cases k <;> simp [h]

/-- A CPython stream object as returned by the builtin `open`.
`closeErr` models whether the native close of this handle will fail
(e.g. an `OSError` while flushing buffered writes); streams freshly
produced by `open` carry `none`. -/
structure PyStream where
  path : String
  mode : String
  pos : Int
  content : List Nat
  closeErr : Option PyErr
  deriving DecidableEq, Repr

/-- Does the mode string hold the given flag character? -/
def modeHasChar (mode : String) (c : Char) : Bool := mode.data.contains c

/-- Does the mode string request binary mode (`'b'` in it)? -/
def modeIsBinary (mode : String) : Bool := modeHasChar mode 'b'

/-- The builtin `open(path, mode, encoding=...)`: combining a binary mode
with an `encoding` argument raises
`ValueError: binary mode doesn't take an encoding argument`; otherwise a
stream at position 0 is produced (`'w'` modes truncate, other modes see
the bytes currently on disk). -/
def py_open (path mode : String) (encoding : Option String) (disk : List Nat) :
    Except PyErr PyStream :=
  if modeIsBinary mode && encoding.isSome then
    .error (.valueError "binary mode does not take an encoding argument")
  else
    .ok { path := path, mode := mode, pos := 0,
          content := if modeHasChar mode 'w' then [] else disk,
          closeErr := none }

/-- `stream.seek(offset, whence)` (0 = absolute, 1 = relative,
2 = from end). -/
def streamSeek (s : PyStream) (offset : Int) (whence : Nat) : PyStream :=
  match whence with
  | 0 => { s with pos := offset }
  | 1 => { s with pos := s.pos + offset }
  | _ => { s with pos := (s.content.length : Int) + offset }

/-- The mutable state of an `OsFile` entity.
`urlPath` is `self.url.filePath` (`none` models a missing location);
`f` is `self._f`; `fileAccessMode` is `self._fileAccessMode` — modelled
from the spec for its initial value: the attribute lives in the external
`ezFs.EzFsFile` base class and is "the last mode used to open
(read/write/binary), remembered for implicit reopen";
`fileAccessModeAttr` is the distinct attribute `self.fileAccessMode`
that `close` assigns; `diskContent` is the byte content currently at
`urlPath` in the backing store. -/
structure FileState where
  urlPath : Option String
  f : Option PyStream
  isOpen : Bool
  fileAccessMode : String
  fileAccessModeAttr : String
  diskContent : List Nat
  deriving DecidableEq, Repr

/-- `OsFile.open(fileAccessMode=None)`: with no stream yet, a missing
location raises `Exception("Null file location")`; otherwise `isOpen` is
set to `True`, the remembered mode is used (or replaced by the argument),
and the builtin `open` is called — always with `encoding='utf-8'`.
With a stream already present, the call instead seeks it to the start.
A raise propagates together with the mutations made before it. -/
def OsFile_open (st : FileState) (mode : Option String) :
    Except (PyErr × FileState) FileState :=
  match st.f with
  | none =>
      match st.urlPath with
      | none => .error (.nullLocation, st)
      | some p =>
          let st1 := { st with isOpen := true }
          let st2 := match mode with
                     | none => st1
                     | some m => { st1 with fileAccessMode := m }
          match py_open p st2.fileAccessMode (some "utf-8") st2.diskContent with
          | .error e => .error (e, st2)
          | .ok s => .ok { st2 with f := some s }
  | some s =>
      .ok { st with f := some (streamSeek s 0 0) }

/-- The stream that `OsFile.open` produces for a never-opened entity at
path `p` when the builtin `open` accepts the remembered mode. -/
def openedStream (st : FileState) (p : String) : PyStream :=
  { path := p, mode := st.fileAccessMode, pos := 0,
    content := if modeHasChar st.fileAccessMode 'w' then [] else st.diskContent,
    closeErr := none }

/-- `OsFile.seek(offset, whence)`: with no stream, the request
"absolute position 0" returns without opening; any other request first
opens implicitly (remembered mode), then seeks the stream. -/
def OsFile_seek (st : FileState) (offset : Int) (whence : Nat) :
    Except (PyErr × FileState) FileState :=
  match st.f with
  | some s => .ok { st with f := some (streamSeek s offset whence) }
  | none =>
      if offset = 0 ∧ whence = 0 then .ok st
      else
        match OsFile_open st none with
        | .error e => .error e
        | .ok st2 =>
            match st2.f with
            | some s => .ok { st2 with f := some (streamSeek s offset whence) }
            | none => .error (.typeError "stream expected after open", st2)

/-- `OsFile.tell()`: 0 with no stream, else the stream position. -/
def OsFile_tell (st : FileState) : Int :=
  match st.f with
  | none => 0
  | some s => s.pos

/-- A Python value passed to `write`: already raw bytes, or text
(any other object is first converted to text by `str(data)`). -/
inductive PyData where
  | bytes (bs : List Nat)
  | str (s : String)
  deriving DecidableEq, Repr

/-- `text.encode("utf-8")` as byte values. -/
def encodeUtf8 (s : String) : List Nat :=
  s.toUTF8.toList.map (fun b => b.toNat)

/-- Write bytes into a buffer at a (non-negative) position. -/
def spliceBytes (content : List Nat) (pos : Nat) (bs : List Nat) : List Nat :=
  content.take pos ++ bs ++ content.drop (pos + bs.length)

/-- `stream.write(bs)` on raw bytes: a text-mode stream rejects bytes with
a `TypeError`; a binary stream writes at the current position and returns
the byte count. -/
def streamWrite (s : PyStream) (bs : List Nat) :
    Except PyErr (PyStream × Nat) :=
  if modeIsBinary s.mode then
    .ok ({ s with content := spliceBytes s.content s.pos.toNat bs,
                  pos := s.pos + bs.length }, bs.length)
  else
    .error (.typeError "write argument must be str, not bytes")

/-- `OsFile.write(data, encoding='utf-8')`: with no stream, first
`self.open('wb')`; text data is encoded to bytes; then the stream write. -/
def OsFile_write (st : FileState) (data : PyData) :
    Except (PyErr × FileState) (FileState × Nat) :=
  let afterOpen : Except (PyErr × FileState) FileState :=
    match st.f with
    | none => OsFile_open st (some "wb")
    | some _ => .ok st
  match afterOpen with
  | .error e => .error e
  | .ok st2 =>
      let bs := match data with
                | .bytes bs => bs
                | .str s => encodeUtf8 s
      match st2.f with
      | none => .error (.typeError "stream expected", st2)
      | some s =>
          match streamWrite s bs with
          | .error e => .error (e, st2)
          | .ok (s2, n) => .ok ({ st2 with f := some s2 }, n)

/-- `stream.read(numBytes)`: bytes from the current position (all of the
remainder when the count is absent). -/
def streamRead (s : PyStream) (numBytes : Option Nat) : PyStream × List Nat :=
  let rest := s.content.drop s.pos.toNat
  let bs := match numBytes with
            | none => rest
            | some n => rest.take n
  ({ s with pos := s.pos + bs.length }, bs)

/-- `OsFile.read(numBytes=None)`: with no stream the source runs
`self._f = self.open('rb')` — `open` is called with mode `'rb'` and, as
always, `encoding='utf-8'`; were that call to succeed it would store the
entity itself (the return value of `open`) in the stream slot and the
following `self._f.read` would re-enter `read` without bound, which
CPython reports as a `RecursionError`. With a stream present, the stream
is read. -/
def OsFile_read (st : FileState) (numBytes : Option Nat) :
    Except (PyErr × FileState) (FileState × List Nat) :=
  match st.f with
  | none =>
      match OsFile_open st (some "rb") with
      | .error e => .error e
      | .ok st2 => .error (.recursionError, st2)
  | some s =>
      let (s2, bs) := streamRead s numBytes
      .ok ({ st with f := some s2 }, bs)

/-- `OsFile.close()`: a no-op with no stream; otherwise `isOpen` is set to
`False` and the attribute `fileAccessMode` (not the remembered
`_fileAccessMode`) is set to `''` before the native close runs — so a
close failure propagates with those mutations already applied and the
stream slot still occupied. -/
def OsFile_close (st : FileState) : Except (PyErr × FileState) FileState :=
  match st.f with
  | none => .ok st
  | some s =>
      let st1 := { st with isOpen := false, fileAccessModeAttr := "" }
      match s.closeErr with
      | some e => .error (e, st1)
      | none => .ok { st1 with f := none }

/-- `OsFile.__del__`: the destructor body just calls `close`. -/
def OsFile_del (st : FileState) : Except (PyErr × FileState) FileState :=
  OsFile_close st

/-- Destroying an `OsFile` entity: the interpreter invokes `__del__`.
Per the Python data model, an exception escaping a destructor is not
propagated to any caller: the interpreter prints a message and ignores
it. The result is the entity state after the destructor ran plus the
log lines the interpreter produced. -/
def destroyOsFile (st : FileState) : FileState × List String :=
  match OsFile_del st with
  | .ok st2 => (st2, [])
  | .error (e, st2) => (st2, ["Exception ignored in destructor: " ++ pyErrMsg e])

/-- A never-opened file entity backed by the concrete path `/tmp/f`,
with the remembered access mode a plain text-read mode. -/
def fileUnopened : FileState :=
  { urlPath := some "/tmp/f", f := none, isOpen := false,
    fileAccessMode := "r", fileAccessModeAttr := "", diskContent := [] }

/-- Claim C2: the write-then-read round trip is impossible as coded. On a
never-opened file entity with a concrete backing path, `write` performs
the implicit `open('wb')`, which always passes `encoding='utf-8'` to the
builtin `open`; a binary mode with an encoding raises `ValueError`, so the
very first step of the round trip fails (and the implicit `open('rb')` of
`read` fails the same way). Evaluated at the failing input: writing the
bytes `b"hi"` to `/tmp/f`. -/
theorem C2_write_unopened_raises :
    OsFile_write fileUnopened (.bytes [104, 105]) =
      .error (.valueError "binary mode does not take an encoding argument",
        { urlPath := some "/tmp/f", f := none, isOpen := true,
          fileAccessMode := "wb", fileAccessModeAttr := "",
          diskContent := [] }) ∧
    OsFile_read fileUnopened none =
      .error (.valueError "binary mode does not take an encoding argument",
        { urlPath := some "/tmp/f", f := none, isOpen := true,
          fileAccessMode := "rb", fileAccessModeAttr := "",
          diskContent := [] }) := by
  constructor <;> rfl

/-- Claim C5: on a never-opened file entity, `seek(0, 0)` leaves the state
untouched (no stream is opened) and `tell()` reports 0; any other seek
request (nonzero offset or non-absolute whence), given a concrete path and
a remembered mode the builtin `open` accepts, opens the stream implicitly
and then seeks it. -/
theorem C5_seek_semantics :
    (∀ st : FileState, st.f = none →
       OsFile_seek st 0 0 = .ok st ∧ OsFile_tell st = 0) ∧
    (∀ (st : FileState) (offset : Int) (whence : Nat) (p : String),
       st.f = none → ¬(offset = 0 ∧ whence = 0) → st.urlPath = some p →
       modeIsBinary st.fileAccessMode = false →
       ∃ stO sO, OsFile_open st none = .ok stO ∧ stO.f = some sO ∧
         OsFile_seek st offset whence =
           .ok { stO with f := some (streamSeek sO offset whence) }) := by
  constructor
  · intro st hf
    constructor
    · simp [OsFile_seek, hf]
    · simp [OsFile_tell, hf]
  · intro st offset whence p hf hne hp hb
    have hopen : OsFile_open st none =
        .ok { st with isOpen := true, f := some (openedStream st p) } := by
      simp [OsFile_open, py_open, openedStream, hf, hp, hb]
    refine ⟨_, _, hopen, rfl, ?_⟩
    simp [OsFile_seek, hf, hne, hopen]

/-- Claim C5, witness: the never-opened entity at `/tmp/f`; `seek(0,0)`
is a no-op with `tell() = 0`, while `seek(5,0)` opens and seeks. -/
theorem C5_seek_semantics_witness :
    (OsFile_seek fileUnopened 0 0 = .ok fileUnopened ∧
       OsFile_tell fileUnopened = 0) ∧
    (∃ stO sO, OsFile_open fileUnopened none = .ok stO ∧ stO.f = some sO ∧
       OsFile_seek fileUnopened 5 0 =
         .ok { stO with f := some (streamSeek sO 5 0) }) :=
  ⟨C5_seek_semantics.1 fileUnopened rfl,
   C5_seek_semantics.2 fileUnopened 5 0 "/tmp/f" rfl (by decide) rfl (by decide)⟩

/-- Claim C8: destroying a file entity attempts the close, and a failure
raised by the native close during this destructor-triggered call is
suppressed — the interpreter logs it and no exception reaches any caller.
The first conjunct shows the close itself does raise; the second shows the
destruction path turns that raise into a log line only. -/
theorem C8_destructor_suppresses_close_failure
    (st : FileState) (s : PyStream) (e : PyErr)
    (hf : st.f = some s) (he : s.closeErr = some e) :
    OsFile_close st =
      .error (e, { st with isOpen := false, fileAccessModeAttr := "" }) ∧
    destroyOsFile st =
      ({ st with isOpen := false, fileAccessModeAttr := "" },
       ["Exception ignored in destructor: " ++ pyErrMsg e]) := by
  have hclose : OsFile_close st =
      .error (e, { st with isOpen := false, fileAccessModeAttr := "" }) := by
    simp [OsFile_close, hf, he]
  exact ⟨hclose, by simp [destroyOsFile, OsFile_del, hclose]⟩

/-- A stream whose native close fails. -/
def streamBadClose : PyStream :=
  { path := "/tmp/f", mode := "r", pos := 0, content := [],
    closeErr := some (.osError "close failed") }

/-- An open file entity holding `streamBadClose`. -/
def fileWithBadStream : FileState :=
  { urlPath := some "/tmp/f", f := some streamBadClose, isOpen := true,
    fileAccessMode := "r", fileAccessModeAttr := "r", diskContent := [] }

/-- Claim C8, witness: an entity whose stream's close raises `OSError`;
its destruction logs the error instead of propagating it. -/
theorem C8_destructor_suppresses_close_failure_witness :
    OsFile_close fileWithBadStream =
      .error (.osError "close failed",
        { fileWithBadStream with isOpen := false, fileAccessModeAttr := "" }) ∧
    destroyOsFile fileWithBadStream =
      ({ fileWithBadStream with isOpen := false, fileAccessModeAttr := "" },
       ["Exception ignored in destructor: " ++
         pyErrMsg (.osError "close failed")]) :=
  C8_destructor_suppresses_close_failure fileWithBadStream streamBadClose
    (.osError "close failed") rfl rfl

deriving instance DecidableEq for Except

/-- A Python generator object: the items it has yet to yield. Iterating
it consumes them in place. -/
structure PyGen (α : Type) where
  remaining : List α
  deriving DecidableEq, Repr

/-- The state of an `OsDirectory` entity: its location and
`self._children`, the cached return value of `OsFs._dir` — a generator,
not a materialized list. `objId` models Python object identity (which
construction produced this object). -/
structure DirState where
  objId : Nat
  url : String
  childrenCache : Option (PyGen (Except PyErr OsItemT))
  deriving DecidableEq, Repr

/-- `OsFs._dir(url)`: the items its generator will yield — one
`_getFsItem` resolution per name `os.listdir` returns for the
directory's path (an empty path falls back to `'.'`). -/
def OsFs_dir_items (store : Store) (listdir : String → List String)
    (dirUrl : String) : List (Except PyErr OsItemT) :=
  let fp := urlFilePath dirUrl
  let path := if fp = "" then "." else fp
  (listdir path).map (fun c => OsFs_getFsItem store (childUrl dirUrl c))

/-- `OsDirectory.markDirty()`: drop the cached children. -/
def OsDirectory_markDirty (d : DirState) : DirState :=
  { d with childrenCache := none }

/-- Reading `d.children` and iterating the result to exhaustion
(`list(d.children)`): with no cache the property stores the fresh
generator from `OsFs._dir` and returns that same object; with a cache it
returns the cached object. Either way the caller's iteration consumes the
very object the cache holds, so afterwards the cache holds an exhausted
generator. The result is the yielded items plus the directory state after
the iteration. -/
def OsDirectory_childrenList (store : Store) (listdir : String → List String)
    (d : DirState) : List (Except PyErr OsItemT) × DirState :=
  match d.childrenCache with
  | none =>
      let g : PyGen (Except PyErr OsItemT) := ⟨OsFs_dir_items store listdir d.url⟩
      (g.remaining, { d with childrenCache := some ⟨[]⟩ })
  | some g => (g.remaining, { d with childrenCache := some ⟨[]⟩ })

/-- A backing store holding the directory `/base` with the single file
`/base/a.txt`. -/
def store0 : Store := fun p =>
  if p = "/base" then some .dir
  else if p = "/base/a.txt" then some .file
  else none

/-- The `os.listdir` matching `store0`. -/
def listdir0 : String → List String := fun p =>
  if p = "/base" then ["a.txt"] else []

/-- The directory entity at `/base`, not yet listed. -/
def dirBase : DirState := { objId := 0, url := "/base", childrenCache := none }

/-- Claim C3: the cache is a generator, not a materialized snapshot. On
the directory `/base` with the one child `a.txt`: the first read of
`children` yields the child file entity, but the second read — with no
`markDirty` in between — returns the same, now exhausted, generator and
yields nothing, so consecutive reads do not yield the same child entities.
After `markDirty()` the next read does re-query the backing store and
yields the child again. -/
theorem C3_second_listing_yields_nothing :
    (OsDirectory_childrenList store0 listdir0 dirBase).1 =
      [.ok (.file "/base/a.txt")] ∧
    (OsDirectory_childrenList store0 listdir0
        (OsDirectory_childrenList store0 listdir0 dirBase).2).1 = [] ∧
    (OsDirectory_childrenList store0 listdir0
        (OsDirectory_markDirty
          (OsDirectory_childrenList store0 listdir0 dirBase).2)).1 =
      [.ok (.file "/base/a.txt")] := by
  refine ⟨?_, ?_, ?_⟩ <;> rfl

/-- The driver's own state: its configured root location and the case
sensitivity fixed at construction. -/
structure OsFsState where
  url : String
  caseSensitive : Bool
  deriving DecidableEq, Repr

/-- `OsFs.__init__(url, defaultLocationCwd)`: case sensitivity is
`os.sep != '\\'`; a missing or empty location defaults to the working
directory, or to the platform root when `defaultLocationCwd` is false;
any other location is normalized (modelled as already normalized). -/
def OsFs_init (url : Option String) (defaultLocationCwd : Bool)
    (cwd : String) (osName : String) (osSep : Char) : OsFsState :=
  let fallback := if defaultLocationCwd then cwd
                  else if osName = "nt" then "c:\\" else "/"
  let u := match url with
           | none => fallback
           | some s => if s = "" then fallback else s
  { url := u, caseSensitive := osSep != '\\' }

/-- `OsFs.root`: each access executes `OsDirectory('file://', self)` — a
brand-new `OsDirectory` at the fixed location `file://`; the configured
root location `fs.url` is not consulted. `nextId` models Python object
allocation: each construction yields an object distinct from every
earlier one, and the next fresh id is returned alongside. -/
def OsFs_root (_fs : OsFsState) (nextId : Nat) : DirState × Nat :=
  ((⟨nextId, "file://", none⟩ : DirState), nextId + 1)

/-- A driver constructed at the explicit root `/tmp/x` on a posix host. -/
def fsAtTmpX : OsFsState := OsFs_init (some "/tmp/x") true "/home/u" "posix" '/'

/-- Claim C9, counterexample: for the driver configured at `/tmp/x`, the
entity the `root` property returns is not scoped to the driver's
configured root location — its location is `file://`, not `/tmp/x`. -/
theorem C9_root_not_configured_root :
    ¬ (OsFs_root fsAtTmpX 0).1.url = fsAtTmpX.url := by decide

/-- Claim C9 (amended): every access of `root` returns a fresh directory
entity — newly constructed, with an empty children cache, distinct from
the entity any other access returns — located at the fixed URL `file://`
rather than at the driver's configured root location. -/
theorem C9_root_fresh_fixed_url (fs : OsFsState) (n : Nat) :
    (OsFs_root fs n).1.url = "file://" ∧
    (OsFs_root fs n).1.childrenCache = none ∧
    (OsFs_root fs n).2 = n + 1 ∧
    (OsFs_root fs n).1.objId ≠ (OsFs_root fs ((OsFs_root fs n).2)).1.objId := by
  refine ⟨rfl, rfl, rfl, ?_⟩
  show n ≠ n + 1
  omega

/-- The world `OsFs._delete` acts on: the backing store plus the cached
children of the deleted item's parent directory. -/
structure FsWorld where
  store : Store
  parentCache : Option (PyGen (Except PyErr OsItemT))

/-- `os.remove(path)`: removes a file; a missing path or a directory
raises the native `OSError`. -/
def os_remove (store : Store) (path : String) : Except PyErr Store :=
  match store path with
  | none => .error (.osError ("FileNotFoundError: " ++ path))
  | some .dir => .error (.osError ("IsADirectoryError: " ++ path))
  | some .file => .ok (fun p => if p = path then none else store p)

/-- `shutil.rmtree(path)`: removes a directory and everything under it
(modelled as atomic over the subtree); a missing path or a plain file
raises the native error. -/
def shutil_rmtree (store : Store) (path : String) : Except PyErr Store :=
  match store path with
  | some .dir =>
      .ok (fun p => if p = path || strStarts p (path ++ "/") then none else store p)
  | some .file => .error (.osError ("NotADirectoryError: " ++ path))
  | none => .error (.osError ("FileNotFoundError: " ++ path))

/-- The location of an entity (`fsItem.fsId`). -/
def itemPath : OsItemT → String
  | .directory u => u
  | .file u => u

/-- The backing-store removal `_delete` performs: `shutil.rmtree` for a
directory entity, `os.remove` for a file entity. -/
def nativeRemoval (w : FsWorld) (item : OsItemT) : Except PyErr Store :=
  match item with
  | .directory _ => shutil_rmtree w.store (itemPath item)
  | .file _ => os_remove w.store (itemPath item)

/-- `OsFs._delete(fsItem)`: perform the native removal; only after it
succeeds is `fsItem.parent.markDirty()` reached. A raise from the removal
propagates to the caller together with the world as it stood when it was
raised. -/
def OsFs_delete (w : FsWorld) (item : OsItemT) :
    Except (PyErr × FsWorld) FsWorld :=
  match nativeRemoval w item with
  | .error e => .error (e, w)
  | .ok store2 => .ok { store := store2, parentCache := none }

/-- Claim C10: when the backing-store removal raises, `_delete` propagates
exactly that error and returns the world unchanged — in particular the
parent directory's cached children snapshot is untouched; the parent is
marked dirty (cache cleared) only on the success path, after the removal.
-/
theorem C10_delete_failure_preserves_cache :
    (∀ (w : FsWorld) (item : OsItemT) (e : PyErr),
       nativeRemoval w item = .error e →
       OsFs_delete w item = .error (e, w)) ∧
    (∀ (w : FsWorld) (item : OsItemT) (store2 : Store),
       nativeRemoval w item = .ok store2 →
       OsFs_delete w item = .ok { store := store2, parentCache := none }) := by
  constructor
  · intro w item e h
    simp [OsFs_delete, h]
  · intro w item store2 h
    simp [OsFs_delete, h]

/-- A world whose backing store is empty and whose parent cache holds a
previously listed snapshot. -/
def emptyWorld : FsWorld :=
  { store := fun _ => none,
    parentCache := some ⟨[.ok (.file "/base/b.txt")]⟩ }

/-- Claim C10, witness: deleting a file entity whose path no longer exists
propagates `FileNotFoundError` and leaves the world — parent cache
included — unchanged. -/
theorem C10_delete_failure_preserves_cache_witness :
    OsFs_delete emptyWorld (.file "/base/gone.txt") =
      .error (.osError ("FileNotFoundError: " ++ "/base/gone.txt"),
        emptyWorld) :=
  C10_delete_failure_preserves_cache.1 emptyWorld (.file "/base/gone.txt")
    (.osError ("FileNotFoundError: " ++ "/base/gone.txt")) rfl

/-- A user-supplied watch callback `watchFn(path, operation)`, which may
itself raise. -/
abbrev WatcherFn := String → String → Except PyErr Unit

/-- `OsItem.addWatch` on the posix backend, once the signal handler is
installed and the descriptor armed: the call enters
`while True: time.sleep(pollingInterval*1000)` in the calling thread — no
thread is spawned. Fuel-indexed run of the call: `none` means that after
`fuel` loop iterations the call has still not returned to its caller; a
`some` value would mean the call returned. The loop has no break, return
or raise. -/
def addWatchPosixRun (pollingInterval : Nat) : Nat → Option Unit
  | 0 => none
  | fuel + 1 => addWatchPosixRun pollingInterval fuel

/-- Claim C1: the watch registration never returns to its caller — the
monitoring loop runs inline in the calling thread (the docstring promises
"This call returns immediately" with the monitoring on a thread, but no
thread is created). Shown on the posix backend: for every amount of fuel,
`addWatch` has still not returned. -/
theorem C1_addWatch_never_returns (pollingInterval fuel : Nat) :
    addWatchPosixRun pollingInterval fuel = none := by
  induction fuel with
  | zero => rfl
  | succ n ih => exact ih

/-- The Windows `ACTIONS` table of the event-queue loop (code 4,
renamed-in-from-elsewhere, maps to CREATE); an unknown code has no entry,
so `ACTIONS[action]` raises `KeyError`. -/
def winActions : Nat → Option String
  | 1 => some "CREATE"
  | 2 => some "DELETE"
  | 3 => some "UPDATE"
  | 4 => some "CREATE"
  | 5 => some "RENAME"
  | _ => none

/-- `os.path.join(source, filename)` as the event-queue loop uses it. -/
def os_path_join (a b : String) : String := a ++ "/" ++ b

/-- The `try` block run for one change record of the event-queue loop:
`watchFn(full_filename, ACTIONS[action])`. The exception the `except`
catches — a `KeyError` from the table or a raise from the callback — is
returned; `none` means the block completed. -/
def winTryNotify (watchFn : WatcherFn) (full : String) (action : Nat) :
    Option PyErr :=
  match winActions action with
  | none => some .keyError
  | some op =>
      match watchFn full op with
      | .ok _ => none
      | .error e => some e

/-- Processing one batch of `ReadDirectoryChangesW` results in the
event-queue loop: every record's notification runs inside `try`/`except`
— "cannot have this throw or it would prevent others executing" — so each
caught exception is printed and the next record is still processed. The
value is the log of printed exceptions; the function is total: no
exception escapes the batch. -/
def winBatchStep (watchFn : WatcherFn) (source : String)
    (results : List (Nat × String)) : List String :=
  results.foldl
    (fun logs r =>
      match winTryNotify watchFn (os_path_join source r.2) r.1 with
      | none => logs
      | some e => logs ++ [pyErrMsg e]) []

/-- The unprotected per-added-name CREATE notifications of the polling
directory loop, in order: the first raise propagates. -/
def notifyAdded (watchFn : WatcherFn) (source : String) :
    List String → Except PyErr Unit
  | [] => .ok ()
  | _ :: rest =>
      match watchFn source "CREATE" with
      | .error e => .error e
      | .ok _ => notifyAdded watchFn source rest

/-- One iteration of the polling directory loop after its sleep: diff the
listed names against the previous snapshot, invoke the callback once per
added name with CREATE and once with REMOVE if any name disappeared —
with no `try` around any of these calls. The result is the next `before`
snapshot, or the exception that escaped the loop. -/
def pollDirStep (watchFn : WatcherFn) (source : String)
    (before after : List String) : Except PyErr (List String) :=
  let added := after.filter (fun f => !(before.contains f))
  let removed := before.filter (fun f => !(after.contains f))
  match notifyAdded watchFn source added with
  | .error e => .error e
  | .ok _ =>
      if removed.isEmpty then .ok after
      else
        match watchFn source "REMOVE" with
        | .error e => .error e
        | .ok _ => .ok after

/-- A callback that raises on every invocation. -/
def raisingWatchFn : WatcherFn := fun _ _ => .error (.callbackErr "boom")

/-- Claim C6: not every backend suppresses callback exceptions. In the
polling directory loop a raising callback's exception escapes the loop
(terminating the watch), while the event-queue loop of the Windows
backend catches the same callback's exceptions, logs both, and processes
every record of the batch. -/
theorem C6_polling_directory_callback_escapes :
    pollDirStep raisingWatchFn "/w" [] ["new.txt"] =
      .error (.callbackErr "boom") ∧
    winBatchStep raisingWatchFn "/w" [(1, "new.txt"), (3, "other.txt")] =
      [pyErrMsg (.callbackErr "boom"), pyErrMsg (.callbackErr "boom")] := by
  constructor <;> rfl

/-- What an iteration of a watch loop does, as observable events. -/
inductive WatchEvent where
  | sleep (seconds : Nat)
  | callbackCall (path : String) (op : String)
  deriving DecidableEq, Repr

/-- The polling single-file loop over a finite schedule of stat
observations (`none`: `os.stat` raises — the file vanished). Each
iteration first sleeps `pollingInterval*1000` seconds — `time.sleep`
takes seconds and the source multiplies the interval by 1000 — then
compares the sampled mtime with the remembered one: on change it
remembers the new value and calls the callback with UPDATE; when the stat
raises, the `except` prints the error and calls the callback with DELETE.
(The two consecutive `os.stat` calls of one iteration are modelled as one
observation; raises from the callback itself are not modelled here.) -/
def pollFileLoop (pollingInterval : Nat) (source : String) (lastchange : Nat) :
    List (Option Nat) → List WatchEvent
  | [] => []
  | obs :: rest =>
      WatchEvent.sleep (pollingInterval * 1000) ::
      match obs with
      | some m =>
          if m ≠ lastchange then
            WatchEvent.callbackCall source "UPDATE" ::
              pollFileLoop pollingInterval source m rest
          else pollFileLoop pollingInterval source lastchange rest
      | none =>
          WatchEvent.callbackCall source "DELETE" ::
            pollFileLoop pollingInterval source lastchange rest

/-- Claim C7: with interval parameter 1 the polling file loop sleeps 1000
seconds between samples, not 1 second — the interval is applied with the
wrong unit. The trace (mtime change, then no change, then a failing stat)
also shows one UPDATE for the change, none for the unchanged sample and a
DELETE for the failed stat, each preceded by a 1000-second sleep. -/
theorem C7_polling_interval_wrong_unit :
    pollFileLoop 1 "/f" 10 [some 11, some 11, none] =
      [WatchEvent.sleep 1000, WatchEvent.callbackCall "/f" "UPDATE",
       WatchEvent.sleep 1000,
       WatchEvent.sleep 1000, WatchEvent.callbackCall "/f" "DELETE"] ∧
    (1000 : Nat) ≠ 1 := by
  constructor
  · rfl
  · decide

end OsFsSpec
